import Mathlib

/-!
Shallow embedding of `mediacopy.py` (Weasyl/mediacopy): the static-image
representation data model, its binary serialization, the link-resolution
pipeline (`create_reps`) and the integrity-checked upload step.

Modelling conventions:

* Byte strings are `List Nat` (each element a byte value); integers from the
  database are `Int`.
* Python object identity (`is` / `is not`): every `ImageRepresentation`
  constructed by the pipeline is wrapped in an `ObjRef` carrying a unique
  arena index `oid`; two references are identical exactly when their `oid`s
  coincide.  `rep_by_mediaid` allocates one fresh `oid` per constructed
  representation, mirroring one Python object per `rep_from_media` call.
* Fallible Python code (`raise`) becomes `Except`; exception classes and
  their interpolated data become constructors of the error types.
* External effects (filesystem reads, SHA-256, MD5, `secrets.token_bytes`,
  `bucket.put_object`) are parameters of the pipeline: the file system is a
  map from paths to byte strings, the digests are abstract functions on byte
  strings, the random key source is a map from allocation index to key, and
  each `put_object` call is recorded as an `UploadCall` in the result.
-/

/-- Constant `FILE_KEY_LENGTH = 16` from the source. -/
def FILE_KEY_LENGTH : Nat := 16

/-- Constant `CHUNK_SIZE = 8192` from the source (chunked reading does not change the
digests or the total length, so the embedding hashes the whole stream). -/
def CHUNK_SIZE : Nat := 8192

/-- Constant `YEAR_SECONDS = 365 * 24 * 3600` from the source. -/
def YEAR_SECONDS : Nat := 365 * 24 * 3600

/-- Tuple `_IMAGE_MEDIA_TYPES` from the source. -/
def IMAGE_MEDIA_TYPES : List String :=
  ["image/png", "image/jpeg", "image/gif", "image/webp"]

/-- Tuple `_IMAGE_EXTENSIONS` from the source. -/
def IMAGE_EXTENSIONS : List String :=
  [".png", ".jpg", ".gif", ".webp"]

/-- Enum `ImageContentType`: the format a static image is stored in. -/
inductive ImageContentType where
  | PNG
  | JPEG
  | GIF_STATIC
  | WEBP_STATIC
deriving DecidableEq, Repr

/-- The enum member's value (`PNG = 1`, `JPEG = 2`, `GIF_STATIC = 3`,
`WEBP_STATIC = 4`). -/
def ImageContentType.value : ImageContentType → Nat
  | .PNG => 1
  | .JPEG => 2
  | .GIF_STATIC => 3
  | .WEBP_STATIC => 4

/-- Method `ImageContentType.serialize_to`: writes `bytes([self.value])`. -/
def ImageContentType.serialize_to (self : ImageContentType) : List Nat :=
  [self.value]

/-- Property `ImageContentType.media_type`: `_IMAGE_MEDIA_TYPES[self.value - 1]`. -/
def ImageContentType.media_type (self : ImageContentType) : String :=
  IMAGE_MEDIA_TYPES.getD (self.value - 1) ""

/-- Property `ImageContentType.extension`: `_IMAGE_EXTENSIONS[self.value - 1]`. -/
def ImageContentType.extension (self : ImageContentType) : String :=
  IMAGE_EXTENSIONS.getD (self.value - 1) ""

/-- Dataclass `ImageRepresentation`: one image variant. -/
structure ImageRepresentation where
  content_type : ImageContentType
  file_key : List Nat
  width : Int
  height : Int
deriving DecidableEq, Repr

/-- The `ValueError`s raised by `ImageRepresentation.__init__`; each
constructor records the offending field and its interpolated value
(`"Image width out of range: {width}"`, `"Image height out of range:
{height}"`, `"Invalid file key: {file_key!r}"`). -/
inductive ValidationError where
  | widthOutOfRange (width : Int)
  | heightOutOfRange (height : Int)
  | invalidFileKey (file_key : List Nat)
deriving DecidableEq, Repr

/-- Constructor `ImageRepresentation.__init__`: validates, then sets all fields; a raise
produces no object at all (`Except.error` carries no representation). -/
def ImageRepresentation.make (content_type : ImageContentType) (file_key : List Nat)
    (width height : Int) : Except ValidationError ImageRepresentation :=
  if ¬ (1 ≤ width ∧ width ≤ 16383) then .error (.widthOutOfRange width)
  else if ¬ (1 ≤ height ∧ height ≤ 16383) then .error (.heightOutOfRange height)
  else if file_key.length ≠ FILE_KEY_LENGTH then .error (.invalidFileKey file_key)
  else .ok ⟨content_type, file_key, width, height⟩

/-- Packing `struct.pack(">H", n)`: one 16-bit unsigned big-endian field. -/
def pack_u16_be (n : Nat) : List Nat := [n / 256 % 256, n % 256]

/-- Method `ImageRepresentation.serialize_to`: content type byte, the 16 key bytes,
then `struct.pack(">HH", width, height)`. -/
def ImageRepresentation.serialize_to (self : ImageRepresentation) : List Nat :=
  self.content_type.serialize_to ++ self.file_key
    ++ pack_u16_be self.width.toNat ++ pack_u16_be self.height.toNat

/-- The invariant `ImageRepresentation.__init__` establishes. -/
def ImageRepresentation.Valid (self : ImageRepresentation) : Prop :=
  1 ≤ self.width ∧ self.width ≤ 16383 ∧ 1 ≤ self.height ∧ self.height ≤ 16383 ∧
    self.file_key.length = FILE_KEY_LENGTH

/-- A reference to a Python `ImageRepresentation` object: `oid` is the
object's identity, so `a is b` is `a.oid = b.oid` and `a is not b` is
`a.oid != b.oid`. -/
structure ObjRef where
  oid : Nat
  val : ImageRepresentation
deriving DecidableEq, Repr

/-- Dataclass `ImageRepresentations`: the five slots (after `__init__` defaulting). -/
structure ImageRepresentations where
  original : ObjRef
  cover : ObjRef
  thumbnail_custom : Option ObjRef
  thumbnail_generated : ObjRef
  thumbnail_generated_webp : Option ObjRef
deriving DecidableEq, Repr

/-- Constructor `ImageRepresentations.__init__`: `if cover is None: cover = original`,
then `if thumbnail_generated is None: thumbnail_generated = cover`, then
store all five slots. -/
def ImageRepresentations.make (original : ObjRef) (cover : Option ObjRef)
    (thumbnail_custom : Option ObjRef) (thumbnail_generated : Option ObjRef)
    (thumbnail_generated_webp : Option ObjRef) : ImageRepresentations :=
  let cover := cover.getD original
  let thumbnail_generated := thumbnail_generated.getD cover
  ⟨original, cover, thumbnail_custom, thumbnail_generated, thumbnail_generated_webp⟩

/-- The `included_mask` local of `ImageRepresentations.serialize_to`. -/
def ImageRepresentations.included_mask (self : ImageRepresentations) : Nat :=
  (self.cover.oid != self.original.oid).toNat
    ||| (self.thumbnail_generated.oid != self.cover.oid).toNat <<< 1
    ||| self.thumbnail_custom.isSome.toNat <<< 2
    ||| self.thumbnail_generated_webp.isSome.toNat <<< 5

/-- Method `ImageRepresentations.serialize_to`: the mask byte, `original`
unconditionally, then each optional slot under the same condition that set
its mask bit. -/
def ImageRepresentations.serialize_to (self : ImageRepresentations) : List Nat :=
  self.included_mask :: self.original.val.serialize_to
    ++ (if self.cover.oid != self.original.oid then self.cover.val.serialize_to else [])
    ++ (if self.thumbnail_generated.oid != self.cover.oid then
          self.thumbnail_generated.val.serialize_to
        else [])
    ++ (match self.thumbnail_custom with
        | some t => t.val.serialize_to
        | none => [])
    ++ (match self.thumbnail_generated_webp with
        | some t => t.val.serialize_to
        | none => [])

/-- Bit arithmetic of the inclusion mask, for all values of the four
conditions. -/
theorem mask_bits (a b c d : Bool) :
    (a.toNat ||| b.toNat <<< 1 ||| c.toNat <<< 2 ||| d.toNat <<< 5).testBit 0 = a ∧
    (a.toNat ||| b.toNat <<< 1 ||| c.toNat <<< 2 ||| d.toNat <<< 5).testBit 1 = b ∧
    (a.toNat ||| b.toNat <<< 1 ||| c.toNat <<< 2 ||| d.toNat <<< 5).testBit 2 = c ∧
    (a.toNat ||| b.toNat <<< 1 ||| c.toNat <<< 2 ||| d.toNat <<< 5).testBit 5 = d ∧
    (a.toNat ||| b.toNat <<< 1 ||| c.toNat <<< 2 ||| d.toNat <<< 5).testBit 3 = false ∧
    (a.toNat ||| b.toNat <<< 1 ||| c.toNat <<< 2 ||| d.toNat <<< 5).testBit 4 = false ∧
    (a.toNat ||| b.toNat <<< 1 ||| c.toNat <<< 2 ||| d.toNat <<< 5).testBit 6 = false ∧
    (a.toNat ||| b.toNat <<< 1 ||| c.toNat <<< 2 ||| d.toNat <<< 5).testBit 7 = false ∧
    a.toNat ||| b.toNat <<< 1 ||| c.toNat <<< 2 ||| d.toNat <<< 5 ≤ 39 ∧
    a.toNat ||| b.toNat <<< 1 ||| c.toNat <<< 2 ||| d.toNat <<< 5
      = a.toNat + 2 * b.toNat + 4 * c.toNat + 32 * d.toNat := by
  cases a <;> cases b <;> cases c <;> cases d <;> decide

/-- A representation with a 16-byte key serializes to exactly 21 bytes:
1 (content type) + 16 (key) + 2 (width) + 2 (height). -/
theorem serialize_len (rep : ImageRepresentation)
    (h : rep.file_key.length = FILE_KEY_LENGTH) : rep.serialize_to.length = 21 := by
  simp [ImageRepresentation.serialize_to, ImageContentType.serialize_to,
    pack_u16_be, h, FILE_KEY_LENGTH]

/-- The URL-safe base64 alphabet of `base64.urlsafe_b64encode`. -/
def B64_ALPHABET : List Char :=
  "ABCDEFGHIJKLMNOPQRSTUVWXYZabcdefghijklmnopqrstuvwxyz0123456789-_".toList

/-- Character for one 6-bit group. -/
def b64char (n : Nat) : Char := B64_ALPHABET.getD n 'A'

/-- Python `base64.urlsafe_b64encode`: standard base64 (with `=` padding) over the
URL-safe alphabet. -/
def urlsafe_b64encode : List Nat → List Char
  | [] => []
  | [a] => [b64char (a / 4), b64char (a % 4 * 16), '=', '=']
  | [a, b] => [b64char (a / 4), b64char (a % 4 * 16 + b / 16), b64char (b % 16 * 4), '=']
  | a :: b :: c :: rest =>
      b64char (a / 4) :: b64char (a % 4 * 16 + b / 16) :: b64char (b % 16 * 4 + c / 64)
        :: b64char (c % 64) :: urlsafe_b64encode rest

/-- Python `.rstrip(b"=")`: remove trailing padding characters. -/
def rstripEq (l : List Char) : List Char :=
  (l.reverse.dropWhile (fun c => c = '=')).reverse

/-- Function `get_bucket_key`: base64 of the file key with padding stripped, plus the
content type's extension.  The representation carries no content hash, so the
name is a function of the capability key and content type alone. -/
def get_bucket_key (rep : ImageRepresentation) : String :=
  String.mk (rstripEq (urlsafe_b64encode rep.file_key)) ++ rep.content_type.extension

/-- Modelled from the spec: `urlsafe_base64_no_padding` — base64 over the
URL-safe alphabet that never emits padding characters. -/
def b64NoPad : List Nat → List Char
  | [] => []
  | [a] => [b64char (a / 4), b64char (a % 4 * 16)]
  | [a, b] => [b64char (a / 4), b64char (a % 4 * 16 + b / 16), b64char (b % 16 * 4)]
  | a :: b :: c :: rest =>
      b64char (a / 4) :: b64char (a % 4 * 16 + b / 16) :: b64char (b % 16 * 4 + c / 64)
        :: b64char (c % 64) :: b64NoPad rest

theorem b64char_ne (n : Nat) : b64char n ≠ '=' := by
  unfold b64char
  rcases Nat.lt_or_ge n B64_ALPHABET.length with hlt | hge
  · rw [List.getD_eq_getElem _ _ hlt]
    have hall : ∀ c ∈ B64_ALPHABET, c ≠ '=' := by decide
    exact hall _ (List.getElem_mem hlt)
  · rw [List.getD_eq_default _ _ hge]
    decide

theorem dropWhile_eq_self_of (l : List Char) (h : ∀ c ∈ l, c ≠ '=') :
    l.dropWhile (fun c => c = '=') = l := by
  cases l with
  | nil => rfl
  | cons a t =>
      have ha : a ≠ '=' := h a (List.mem_cons_self a t)
      simp [List.dropWhile_cons, ha]

theorem rstripEq_append (xs ys : List Char) (h : ∀ c ∈ xs, c ≠ '=') :
    rstripEq (xs ++ ys) = xs ++ rstripEq ys := by
  unfold rstripEq
  rw [List.reverse_append, List.dropWhile_append]
  by_cases hy : (List.dropWhile (fun c => decide (c = '=')) ys.reverse).isEmpty
  · rw [if_pos hy]
    have hys : List.dropWhile (fun c => decide (c = '=')) ys.reverse = [] := by
      simpa [List.isEmpty_iff] using hy
    rw [dropWhile_eq_self_of xs.reverse (fun c hc => h c (List.mem_reverse.mp hc)),
      List.reverse_reverse, hys]
    simp
  · rw [if_neg hy, List.reverse_append, List.reverse_reverse]

theorem rstrip_urlsafe : ∀ l : List Nat, rstripEq (urlsafe_b64encode l) = b64NoPad l
  | [] => by simp [urlsafe_b64encode, b64NoPad, rstripEq]
  | [a] => by
      have h : rstripEq ([b64char (a / 4), b64char (a % 4 * 16)] ++ ['=', '=']) =
          [b64char (a / 4), b64char (a % 4 * 16)] ++ rstripEq ['=', '='] := by
        refine rstripEq_append _ _ ?_
        intro c hc
        rcases List.mem_pair.mp hc with rfl | rfl <;> exact b64char_ne _
      simpa [urlsafe_b64encode, b64NoPad, rstripEq] using h
  | [a, b] => by
      have h : rstripEq ([b64char (a / 4), b64char (a % 4 * 16 + b / 16),
            b64char (b % 16 * 4)] ++ ['=']) =
          [b64char (a / 4), b64char (a % 4 * 16 + b / 16), b64char (b % 16 * 4)]
            ++ rstripEq ['='] := by
        refine rstripEq_append _ _ ?_
        intro c hc
        simp only [List.mem_cons, List.not_mem_nil, or_false] at hc
        rcases hc with rfl | rfl | rfl <;> exact b64char_ne _
      simpa [urlsafe_b64encode, b64NoPad, rstripEq] using h
  | a :: b :: c :: rest => by
      have ih := rstrip_urlsafe rest
      have h : rstripEq ([b64char (a / 4), b64char (a % 4 * 16 + b / 16),
            b64char (b % 16 * 4 + c / 64), b64char (c % 64)] ++ urlsafe_b64encode rest) =
          [b64char (a / 4), b64char (a % 4 * 16 + b / 16), b64char (b % 16 * 4 + c / 64),
            b64char (c % 64)] ++ rstripEq (urlsafe_b64encode rest) := by
        refine rstripEq_append _ _ ?_
        intro x hx
        simp only [List.mem_cons, List.not_mem_nil, or_false] at hx
        rcases hx with rfl | rfl | rfl | rfl <;> exact b64char_ne _
      simpa [urlsafe_b64encode, b64NoPad, ih] using h

/-- The `attributes` of a media item (after the `int(...)` conversions
applied by `rep_from_media`). -/
structure Attributes where
  width : Int
  height : Int
deriving DecidableEq, Repr

/-- One link record of `row.links`. -/
structure MediaLink where
  link_type : String
  mediaid : Int
  sha256 : String
  file_type : String
  attributes : Attributes
deriving DecidableEq, Repr

/-- Projection `subdict(link, ["sha256", "file_type", "attributes"])`. -/
structure Media where
  sha256 : String
  file_type : String
  attributes : Attributes
deriving DecidableEq, Repr

/-- Rendering of Python `repr` for an attributes dict. -/
def pyReprAttributes (a : Attributes) : String :=
  "\x7b\x27width\x27: " ++ toString a.width ++ ", \x27height\x27: " ++ toString a.height ++ "\x7d"

/-- Rendering of Python `repr` for one link dict. -/
def pyReprLink (l : MediaLink) : String :=
  "\x7b\x27link_type\x27: \x27" ++ l.link_type ++ "\x27, \x27mediaid\x27: " ++ toString l.mediaid
    ++ ", \x27sha256\x27: \x27" ++ l.sha256 ++ "\x27, \x27file_type\x27: \x27" ++ l.file_type
    ++ "\x27, \x27attributes\x27: " ++ pyReprAttributes l.attributes ++ "\x7d"

/-- Rendering of Python `repr` for the `links` dict (keyed by link type, in
insertion order), as interpolated by `f"Required key not found in {links!r}"`. -/
def pyReprLinks (links : List (String × MediaLink)) : String :=
  "\x7b" ++ String.intercalate ", "
    (links.map (fun kv => "\x27" ++ kv.1 ++ "\x27: " ++ pyReprLink kv.2)) ++ "\x7d"

/-- Does `pat` occur at the start of `l`? -/
def startsWithChars : List Char → List Char → Bool
  | [], _ => true
  | _ :: _, [] => false
  | p :: ps, c :: cs => p = c && startsWithChars ps cs

/-- Does `pat` occur anywhere in `l`? -/
def containsChars (pat : List Char) : List Char → Bool
  | [] => pat.isEmpty
  | c :: cs => startsWithChars pat (c :: cs) || containsChars pat cs

/-- Does the string `pat` occur as a substring of `s`? -/
def strMentions (pat s : String) : Bool := containsChars pat.toList s.toList

/-- The exceptions `create_reps` can raise, with the data each message
interpolates.  `missingLink` is the `Exception(f"Required key not found in
{links!r}")` raised by `get_rep`, chained (`raise ... from e`) from the
`KeyError` whose argument is the missing link type, recorded as `cause_key`.
`keyErrorRep` / `keyErrorMedia` are the (unreachable in practice) `KeyError`s
of the `rep_by_mediaid[...]` / `media_by_mediaid[...]` subscripts. -/
inductive CreateRepsError where
  | duplicateKey (key : String)
  | unsupportedFormat (file_type : String)
  | validation (e : ValidationError)
  | missingLink (message : String) (cause_key : String)
  | keyErrorRep (mediaid : Int)
  | keyErrorMedia (mediaid : Int)
  | integrity (message : String)
deriving DecidableEq, Repr

/-- The five known roles, in the order `create_reps` lists them. -/
def ROLE_KEYS : List String :=
  ["submission", "cover", "thumbnail-custom", "thumbnail-generated", "thumbnail-generated-webp"]

/-- Accumulator loop of `lookup_by(row.links, lambda link: link["link_type"])`:
raises `ValueError(f"Unexpected duplicate key {key!r}")` on a repeated key,
otherwise builds the dict in insertion order. -/
def lookup_by_aux (acc : List (String × MediaLink)) :
    List MediaLink → Except CreateRepsError (List (String × MediaLink))
  | [] => .ok acc
  | x :: xs =>
      if acc.any (fun kv => kv.1 == x.link_type) then .error (.duplicateKey x.link_type)
      else lookup_by_aux (acc ++ [(x.link_type, x)]) xs

/-- Function `lookup_by` as used in `create_reps`. -/
def lookup_by (links : List MediaLink) : Except CreateRepsError (List (String × MediaLink)) :=
  lookup_by_aux [] links

/-- Function `subdict(d, keys)`: the sub-dict of `d` restricted to `keys`, in the
order of `keys`. -/
def subdict (d : List (String × MediaLink)) (keys : List String) : List (String × MediaLink) :=
  keys.filterMap (fun k => (d.lookup k).map (fun v => (k, v)))

/-- One step of a Python dict comprehension: overwrite in place if the key is
present, else append. -/
def dictInsert (d : List (Int × Media)) (k : Int) (v : Media) : List (Int × Media) :=
  if d.any (fun kv => kv.1 == k) then
    d.map (fun kv => if kv.1 == k then (k, v) else kv)
  else d ++ [(k, v)]

/-- Comprehension `media_by_mediaid = {link["mediaid"]: subdict(link, [...]) for link in
links.values()}`. -/
def media_by_mediaid (links : List (String × MediaLink)) : List (Int × Media) :=
  links.foldl (fun d kv => dictInsert d kv.2.mediaid ⟨kv.2.sha256, kv.2.file_type, kv.2.attributes⟩) []

/-- Mapping `IMAGE_CONTENT_TYPES`: the `file_type` → `ImageContentType` mapping;
an absent key is the dict's `KeyError`. -/
def IMAGE_CONTENT_TYPES (file_type : String) : Option ImageContentType :=
  if file_type = "gif" then some .GIF_STATIC
  else if file_type = "jpg" then some .JPEG
  else if file_type = "png" then some .PNG
  else if file_type = "webp" then some .WEBP_STATIC
  else none

/-- Function `rep_from_media`, with the bytes `secrets.token_bytes(FILE_KEY_LENGTH)`
produced for this call passed in as `file_key`. -/
def rep_from_media (file_key : List Nat) (media : Media) :
    Except CreateRepsError ImageRepresentation :=
  match IMAGE_CONTENT_TYPES media.file_type with
  | none => .error (.unsupportedFormat media.file_type)
  | some ct =>
      match ImageRepresentation.make ct file_key media.attributes.width media.attributes.height with
      | .error e => .error (.validation e)
      | .ok rep => .ok rep

/-- Comprehension `rep_by_mediaid = map_values(rep_from_media, media_by_mediaid)`: each
`rep_from_media` call creates a fresh Python object; `i` is the arena index
of the next object, so the `k`-th constructed representation gets identity
`i + k` and the key bytes `keySupply (i + k)`. -/
def rep_by_mediaid_aux (keySupply : Nat → List Nat) :
    Nat → List (Int × Media) → Except CreateRepsError (List (Int × ObjRef))
  | _, [] => .ok []
  | i, (mid, m) :: rest =>
      match rep_from_media (keySupply i) m with
      | .error e => .error e
      | .ok rep =>
          match rep_by_mediaid_aux keySupply (i + 1) rest with
          | .error e => .error e
          | .ok rest' => .ok ((mid, ⟨i, rep⟩) :: rest')

/-- Comprehension `rep_by_mediaid`, allocating identities from `0`. -/
def rep_by_mediaid (keySupply : Nat → List Nat) (mbm : List (Int × Media)) :
    Except CreateRepsError (List (Int × ObjRef)) :=
  rep_by_mediaid_aux keySupply 0 mbm

/-- Closure `get_rep(link_type)` (default `missing_ok=False`): a missing link type
raises `Exception(f"Required key not found in {links!r}") from e` where `e`
is the `KeyError` naming the link type; otherwise the representation is
looked up by the link's `mediaid`. -/
def get_rep_required (links : List (String × MediaLink)) (rbm : List (Int × ObjRef))
    (link_type : String) : Except CreateRepsError ObjRef :=
  match links.lookup link_type with
  | none => .error (.missingLink ("Required key not found in " ++ pyReprLinks links) link_type)
  | some link =>
      match rbm.lookup link.mediaid with
      | none => .error (.keyErrorRep link.mediaid)
      | some r => .ok r

/-- Closure `get_rep(link_type, missing_ok=True)`: an absent link type returns
`None` without error. -/
def get_rep_optional (links : List (String × MediaLink)) (rbm : List (Int × ObjRef))
    (link_type : String) : Except CreateRepsError (Option ObjRef) :=
  match links.lookup link_type with
  | none => .ok none
  | some link =>
      match rbm.lookup link.mediaid with
      | none => .error (.keyErrorRep link.mediaid)
      | some r => .ok (some r)

/-- The `os.path.join(MEDIA_ROOT, sha[0:2], sha[2:4], sha[4:6],
sha + "." + file_type)` sharded source path. -/
def shard_path (mediaRoot sha256 file_type : String) : String :=
  mediaRoot ++ "/" ++ String.mk (sha256.toList.take 2)
    ++ "/" ++ String.mk ((sha256.toList.drop 2).take 2)
    ++ "/" ++ String.mk ((sha256.toList.drop 4).take 2)
    ++ "/" ++ sha256 ++ "." ++ file_type

/-- One `bucket.put_object(...)` call, with the keyword arguments the source
passes. -/
structure UploadCall where
  body : List Nat
  cache_control : String
  content_md5 : String
  content_length : Nat
  content_type : String
  key : String
deriving DecidableEq, Repr

/-- The body of the upload loop for one distinct media item: stream the
source file (accumulating MD5, SHA-256 and length), raise
`Exception(f"SHA-256 mismatch: got {digest!r} for {file_path!r}")` if the
computed digest differs from the expected one, and only otherwise issue the
`put_object` call.  `fs` maps a path to the file's bytes; `sha256_hex` is the
hex digest and `md5_b64` the base64 MD5 digest of a byte string. -/
def upload_media (mediaRoot : String) (fs : String → List Nat)
    (sha256_hex md5_b64 : List Nat → String) (rep : ObjRef) (media : Media) :
    Except CreateRepsError UploadCall :=
  let file_path := shard_path mediaRoot media.sha256 media.file_type
  let data := fs file_path
  if sha256_hex data ≠ media.sha256 then
    .error (.integrity ("SHA-256 mismatch: got \x27" ++ sha256_hex data
      ++ "\x27 for \x27" ++ file_path ++ "\x27"))
  else
    .ok ⟨data, "public, max-age=" ++ toString YEAR_SECONDS ++ ", immutable",
      md5_b64 data, data.length, rep.val.content_type.media_type, get_bucket_key rep.val⟩

/-- The `for mediaid, rep in rep_by_mediaid.items()` upload loop, recording
the `put_object` calls in order. -/
def upload_all (mediaRoot : String) (fs : String → List Nat)
    (sha256_hex md5_b64 : List Nat → String) (mbm : List (Int × Media)) :
    List (Int × ObjRef) → Except CreateRepsError (List UploadCall)
  | [] => .ok []
  | (mid, rep) :: rest =>
      match mbm.lookup mid with
      | none => .error (.keyErrorMedia mid)
      | some media =>
          match upload_media mediaRoot fs sha256_hex md5_b64 rep media with
          | .error e => .error e
          | .ok call =>
              match upload_all mediaRoot fs sha256_hex md5_b64 mbm rest with
              | .error e => .error e
              | .ok calls => .ok (call :: calls)

/-- Function `create_reps(bucket, row)`.  The function's Python return value is the
pair `(reps, len(rep_by_mediaid))`; the `put_object` side effects are
recorded alongside it as the list of `UploadCall`s issued. -/
def create_reps (mediaRoot : String) (fs : String → List Nat)
    (sha256_hex md5_b64 : List Nat → String) (keySupply : Nat → List Nat)
    (row_links : List MediaLink) :
    Except CreateRepsError ((ImageRepresentations × Nat) × List UploadCall) :=
  match lookup_by row_links with
  | .error e => .error e
  | .ok all =>
      let links := subdict all ROLE_KEYS
      let mbm := media_by_mediaid links
      match rep_by_mediaid keySupply mbm with
      | .error e => .error e
      | .ok rbm =>
          match get_rep_required links rbm "submission" with
          | .error e => .error e
          | .ok original =>
              match get_rep_required links rbm "cover" with
              | .error e => .error e
              | .ok cover =>
                  match get_rep_optional links rbm "thumbnail-custom" with
                  | .error e => .error e
                  | .ok thumbnail_custom =>
                      match get_rep_required links rbm "thumbnail-generated" with
                      | .error e => .error e
                      | .ok thumbnail_generated =>
                          match get_rep_optional links rbm "thumbnail-generated-webp" with
                          | .error e => .error e
                          | .ok thumbnail_generated_webp =>
                              let reps := ImageRepresentations.make original (some cover)
                                thumbnail_custom (some thumbnail_generated)
                                thumbnail_generated_webp
                              match upload_all mediaRoot fs sha256_hex md5_b64 mbm rbm with
                              | .error e => .error e
                              | .ok uploads => .ok ((reps, rbm.length), uploads)

theorem lookup_mem {β : Type} (l : List (Int × β)) (k : Int) (v : β)
    (h : l.lookup k = some v) : (k, v) ∈ l := by
  induction l with
  | nil => simp [List.lookup] at h
  | cons a t ih =>
      obtain ⟨k', v'⟩ := a
      rw [List.lookup_cons] at h
      by_cases hk : k == k'
      · rw [hk] at h
        simp only [Option.some.injEq] at h
        subst h
        exact (beq_iff_eq.mp hk) ▸ List.mem_cons_self _ _
      · rw [Bool.eq_false_iff.mpr hk] at h
        exact List.mem_cons_of_mem _ (ih h)

theorem rep_by_mediaid_aux_spec (ks : Nat → List Nat) :
    ∀ (mbm : List (Int × Media)) (i : Nat) (rbm : List (Int × ObjRef)),
      rep_by_mediaid_aux ks i mbm = .ok rbm →
      rbm.map Prod.fst = mbm.map Prod.fst ∧
      rbm.map (fun e => e.2.oid) = List.range' i mbm.length := by
  intro mbm
  induction mbm with
  | nil =>
      intro i rbm h
      simp only [rep_by_mediaid_aux, Except.ok.injEq] at h
      subst h
      simp [List.range']
  | cons p rest ih =>
      intro i rbm h
      obtain ⟨mid, m⟩ := p
      rw [rep_by_mediaid_aux] at h
      cases hr : rep_from_media (ks i) m with
      | error e => rw [hr] at h; cases h
      | ok rep =>
          rw [hr] at h
          cases hrec : rep_by_mediaid_aux ks (i + 1) rest with
          | error e => rw [hrec] at h; cases h
          | ok rest' =>
              rw [hrec] at h
              simp only [Except.ok.injEq] at h
              subst h
              obtain ⟨h1, h2⟩ := ih (i + 1) rest' hrec
              refine ⟨by simp [h1], ?_⟩
              show i :: rest'.map (fun e => e.2.oid) = List.range' i (rest.length + 1)
              rw [h2, List.range'_succ]

theorem dictInsert_keys (d : List (Int × Media)) (k : Int) (v : Media) :
    (dictInsert d k v).map Prod.fst =
      if k ∈ d.map Prod.fst then d.map Prod.fst else d.map Prod.fst ++ [k] := by
  unfold dictInsert
  by_cases h : d.any (fun kv => kv.1 == k)
  · have hmem : k ∈ d.map Prod.fst := by
      rcases List.any_eq_true.mp h with ⟨x, hx, hxk⟩
      exact List.mem_map.mpr ⟨x, hx, beq_iff_eq.mp hxk⟩
    rw [if_pos h, if_pos hmem, List.map_map]
    apply List.map_congr_left
    intro a _
    by_cases hak : a.1 == k
    · simp only [Function.comp_apply, hak, if_true]
      exact (beq_iff_eq.mp hak).symm
    · have hne : a.1 ≠ k := fun hh => hak (beq_iff_eq.mpr hh)
      simp [hne]
  · have hmem : k ∉ d.map Prod.fst := by
      intro hk
      rcases List.mem_map.mp hk with ⟨x, hx, hxk⟩
      exact h (List.any_eq_true.mpr ⟨x, hx, beq_iff_eq.mpr hxk⟩)
    rw [if_neg h, if_neg hmem, List.map_append]
    rfl

theorem mbm_fold_keys :
    ∀ (links : List (String × MediaLink)) (acc : List (Int × Media)),
      (acc.map Prod.fst).Nodup →
      (((links.foldl (fun d kv =>
          dictInsert d kv.2.mediaid ⟨kv.2.sha256, kv.2.file_type, kv.2.attributes⟩) acc).map
            Prod.fst).Nodup ∧
        ∀ k, k ∈ (links.foldl (fun d kv =>
            dictInsert d kv.2.mediaid ⟨kv.2.sha256, kv.2.file_type, kv.2.attributes⟩) acc).map
              Prod.fst ↔
          k ∈ acc.map Prod.fst ∨ k ∈ links.map (fun kv => kv.2.mediaid)) := by
  intro links
  induction links with
  | nil => intro acc hacc; simpa using hacc
  | cons kv rest ih =>
      intro acc hacc
      rw [List.foldl_cons]
      have hkeys := dictInsert_keys acc kv.2.mediaid ⟨kv.2.sha256, kv.2.file_type, kv.2.attributes⟩
      have hnodup : ((dictInsert acc kv.2.mediaid
          ⟨kv.2.sha256, kv.2.file_type, kv.2.attributes⟩).map Prod.fst).Nodup := by
        rw [hkeys]
        by_cases hm : kv.2.mediaid ∈ acc.map Prod.fst
        · rwa [if_pos hm]
        · rw [if_neg hm]
          simp [List.nodup_append, hacc, List.disjoint_singleton, hm]
      obtain ⟨ih1, ih2⟩ := ih _ hnodup
      refine ⟨ih1, fun k => ?_⟩
      rw [ih2 k, hkeys]
      by_cases hm : kv.2.mediaid ∈ acc.map Prod.fst
      · rw [if_pos hm]
        simp only [List.map_cons, List.mem_cons]
        constructor
        · rintro (h | h)
          · exact Or.inl h
          · exact Or.inr (Or.inr h)
        · rintro (h | rfl | h)
          · exact Or.inl h
          · exact Or.inl hm
          · exact Or.inr h
      · rw [if_neg hm]
        simp only [List.mem_append, List.mem_singleton, List.map_cons, List.mem_cons]
        tauto
theorem create_reps_ok_inv (mediaRoot : String) (fs : String → List Nat)
    (sha256_hex md5_b64 : List Nat → String) (keySupply : Nat → List Nat)
    (row_links : List MediaLink) (reps : ImageRepresentations) (count : Nat)
    (uploads : List UploadCall)
    (h : create_reps mediaRoot fs sha256_hex md5_b64 keySupply row_links
      = .ok ((reps, count), uploads)) :
    ∃ all rbm, lookup_by row_links = .ok all ∧
      rep_by_mediaid keySupply (media_by_mediaid (subdict all ROLE_KEYS)) = .ok rbm ∧
      count = rbm.length := by
  unfold create_reps at h
  split at h
  · cases h
  · next all heq =>
      simp only [] at h
      split at h
      · cases h
      · next rbm hrbm =>
          refine ⟨all, rbm, heq, hrbm, ?_⟩
          split at h
          · cases h
          · split at h
            · cases h
            · split at h
              · cases h
              · split at h
                · cases h
                · split at h
                  · cases h
                  · split at h
                    · cases h
                    · simp only [Except.ok.injEq, Prod.mk.injEq] at h
                      exact h.1.2.symm

/-- An 800×600 PNG representation with an all-zero 16-byte key. -/
def repA : ImageRepresentation := ⟨.PNG, List.replicate 16 0, 800, 600⟩

/-- A 200×150 JPEG representation with an all-zero 16-byte key. -/
def repB : ImageRepresentation := ⟨.JPEG, List.replicate 16 0, 200, 150⟩

/-- Object `A` of the spec's end-to-end scenario. -/
def refA : ObjRef := ⟨0, repA⟩

/-- Object `B` of the spec's end-to-end scenario, identity-distinct from `A`. -/
def refB : ObjRef := ⟨1, repB⟩

/-- The set `{original = cover = A, thumbnail_generated = B, no optionals}`. -/
def setAB : ImageRepresentations := ⟨refA, refA, none, refB, none⟩

/-- C2 (counterexample): a valid representation (800×600 PNG, 16-byte key)
serializes to 21 bytes — 1 + 16 + 2 + 2 — not to the 20 bytes the claim
states. -/
theorem rep_serialize_not_20 :
    repA.Valid ∧ repA.serialize_to.length = 21 ∧ repA.serialize_to.length ≠ 20 := by
  refine ⟨?_, by decide, by decide⟩
  refine ⟨by decide, by decide, by decide, by decide, by decide⟩

/-- C2 (amended): for every valid representation, `serialize_to` produces
exactly 21 bytes: 1 content-type ordinal byte (`PNG = 1`, `JPEG = 2`,
`GIF_STATIC = 3`, `WEBP_STATIC = 4`), the 16 capability-key bytes verbatim,
then width and height each as 2-byte big-endian unsigned integers, with no
padding and no length prefix. -/
theorem rep_serialize_layout (rep : ImageRepresentation) (h : rep.Valid) :
    rep.serialize_to
      = rep.content_type.value :: rep.file_key
          ++ [rep.width.toNat / 256, rep.width.toNat % 256,
              rep.height.toNat / 256, rep.height.toNat % 256] ∧
    rep.serialize_to.length = 21 ∧
    rep.width.toNat / 256 < 256 ∧ rep.width.toNat % 256 < 256 ∧
    rep.height.toNat / 256 < 256 ∧ rep.height.toNat % 256 < 256 ∧
    256 * (rep.width.toNat / 256) + rep.width.toNat % 256 = rep.width.toNat ∧
    256 * (rep.height.toNat / 256) + rep.height.toNat % 256 = rep.height.toNat ∧
    ImageContentType.value .PNG = 1 ∧ ImageContentType.value .JPEG = 2 ∧
    ImageContentType.value .GIF_STATIC = 3 ∧ ImageContentType.value .WEBP_STATIC = 4 := by
  obtain ⟨h1, h2, h3, h4, h5⟩ := h
  have hw : rep.width.toNat ≤ 16383 := Int.toNat_le.mpr h2
  have hh : rep.height.toNat ≤ 16383 := Int.toNat_le.mpr h4
  refine ⟨?_, serialize_len rep h5, by omega, by omega, by omega, by omega, by omega,
    by omega, rfl, rfl, rfl, rfl⟩
  simp [ImageRepresentation.serialize_to, ImageContentType.serialize_to, pack_u16_be,
    Nat.mod_eq_of_lt (show rep.width.toNat / 256 < 256 by omega),
    Nat.mod_eq_of_lt (show rep.height.toNat / 256 < 256 by omega)]

/-- C2 (witness): the amended layout at a concrete valid representation. -/
theorem rep_serialize_layout_witness :
    ImageRepresentation.serialize_to ⟨.JPEG, List.replicate 16 7, 200, 150⟩
      = 2 :: List.replicate 16 7 ++ [0, 200, 0, 150] :=
  (rep_serialize_layout ⟨.JPEG, List.replicate 16 7, 200, 150⟩
    ⟨by decide, by decide, by decide, by decide, by decide⟩).1

/-- C1 (counterexample): for the spec's end-to-end set `{original = cover =
A, thumbnail_generated = B distinct, no optionals}`, the mask byte is 2 as
claimed but the serialized output is 43 bytes (1 + 21 + 21), not the 41 the
claim states. -/
theorem reps_serialize_not_41 :
    setAB.included_mask = 2 ∧ setAB.serialize_to.length = 43 ∧
    setAB.serialize_to.length ≠ 41 := by
  refine ⟨by decide, by decide, by decide⟩

/-- C1 (amended): `ImageRepresentations.serialize_to` writes exactly one mask
byte whose bits are (LSB first) bit0 = `cover` reference-distinct from
`original`, bit1 = `thumbnail_generated` reference-distinct from the resolved
`cover`, bit2 = `thumbnail_custom` present, bit5 =
`thumbnail_generated_webp` present; then `original`'s 21 bytes
unconditionally; then, in this order, `cover`'s 21 bytes iff bit0,
`thumbnail_generated`'s 21 bytes iff bit1, `thumbnail_custom`'s 21 bytes iff
bit2, `thumbnail_generated_webp`'s 21 bytes iff bit5.  (The claim's
"20 bytes" per record and "41 bytes" for the example are off by one per
record: each record is 21 bytes, the example 43.) -/
theorem reps_serialize_layout (s : ImageRepresentations)
    (ho : s.original.val.file_key.length = FILE_KEY_LENGTH)
    (hc : s.cover.val.file_key.length = FILE_KEY_LENGTH)
    (hg : s.thumbnail_generated.val.file_key.length = FILE_KEY_LENGTH)
    (hcu : ∀ t, s.thumbnail_custom = some t → t.val.file_key.length = FILE_KEY_LENGTH)
    (hwb : ∀ t, s.thumbnail_generated_webp = some t → t.val.file_key.length = FILE_KEY_LENGTH) :
    s.included_mask.testBit 0 = (s.cover.oid != s.original.oid) ∧
    s.included_mask.testBit 1 = (s.thumbnail_generated.oid != s.cover.oid) ∧
    s.included_mask.testBit 2 = s.thumbnail_custom.isSome ∧
    s.included_mask.testBit 5 = s.thumbnail_generated_webp.isSome ∧
    s.serialize_to
      = s.included_mask :: s.original.val.serialize_to
          ++ (if s.included_mask.testBit 0 then s.cover.val.serialize_to else [])
          ++ (if s.included_mask.testBit 1 then s.thumbnail_generated.val.serialize_to else [])
          ++ (if s.included_mask.testBit 2 then
                s.thumbnail_custom.elim [] (fun t => t.val.serialize_to)
              else [])
          ++ (if s.included_mask.testBit 5 then
                s.thumbnail_generated_webp.elim [] (fun t => t.val.serialize_to)
              else []) ∧
    s.original.val.serialize_to.length = 21 ∧
    s.cover.val.serialize_to.length = 21 ∧
    s.thumbnail_generated.val.serialize_to.length = 21 ∧
    (∀ t, s.thumbnail_custom = some t → t.val.serialize_to.length = 21) ∧
    (∀ t, s.thumbnail_generated_webp = some t → t.val.serialize_to.length = 21) := by
  obtain ⟨hb0, hb1, hb2, hb5, _, _, _, _, _, _⟩ :=
    mask_bits (s.cover.oid != s.original.oid) (s.thumbnail_generated.oid != s.cover.oid)
      s.thumbnail_custom.isSome s.thumbnail_generated_webp.isSome
  have hb0' : s.included_mask.testBit 0 = (s.cover.oid != s.original.oid) := hb0
  have hb1' : s.included_mask.testBit 1 = (s.thumbnail_generated.oid != s.cover.oid) := hb1
  have hb2' : s.included_mask.testBit 2 = s.thumbnail_custom.isSome := hb2
  have hb5' : s.included_mask.testBit 5 = s.thumbnail_generated_webp.isSome := hb5
  refine ⟨hb0', hb1', hb2', hb5', ?_, serialize_len _ ho, serialize_len _ hc,
    serialize_len _ hg, fun t ht => serialize_len _ (hcu t ht),
    fun t ht => serialize_len _ (hwb t ht)⟩
  rw [hb0', hb1', hb2', hb5']
  simp only [ImageRepresentations.serialize_to]
  cases hcus : s.thumbnail_custom <;> cases hwbs : s.thumbnail_generated_webp <;>
    simp [hcus, hwbs]

/-- C1 (witness): the amended layout at the end-to-end scenario set: mask
byte 2 (bit1 only), 43 bytes total. -/
theorem reps_serialize_layout_witness :
    setAB.included_mask.testBit 1 = true ∧ setAB.serialize_to.length = 43 ∧
    setAB.serialize_to
      = setAB.included_mask :: setAB.original.val.serialize_to
          ++ (if setAB.included_mask.testBit 0 then setAB.cover.val.serialize_to else [])
          ++ (if setAB.included_mask.testBit 1 then
                setAB.thumbnail_generated.val.serialize_to
              else [])
          ++ (if setAB.included_mask.testBit 2 then
                setAB.thumbnail_custom.elim [] (fun t => t.val.serialize_to)
              else [])
          ++ (if setAB.included_mask.testBit 5 then
                setAB.thumbnail_generated_webp.elim [] (fun t => t.val.serialize_to)
              else []) := by
  have h := reps_serialize_layout setAB (by decide) (by decide) (by decide)
    (by intro t ht; cases ht) (by intro t ht; cases ht)
  exact ⟨by decide, by decide, h.2.2.2.2.1⟩

/-- C3: construction succeeds (yielding exactly the given fields, with no
other effect) for every width and height in `[1, 16383]` and every 16-byte
key, and fails with the `ValidationError` naming the offending field and its
value whenever width or height is out of range or the key length is not 16;
an error result carries no representation, so no partial object exists. -/
theorem rep_make_spec (ct : ImageContentType) (key : List Nat) (w h : Int) :
    (1 ≤ w ∧ w ≤ 16383 ∧ 1 ≤ h ∧ h ≤ 16383 ∧ key.length = FILE_KEY_LENGTH →
      ImageRepresentation.make ct key w h = .ok ⟨ct, key, w, h⟩) ∧
    (¬ (1 ≤ w ∧ w ≤ 16383) →
      ImageRepresentation.make ct key w h = .error (.widthOutOfRange w)) ∧
    ((1 ≤ w ∧ w ≤ 16383) → ¬ (1 ≤ h ∧ h ≤ 16383) →
      ImageRepresentation.make ct key w h = .error (.heightOutOfRange h)) ∧
    ((1 ≤ w ∧ w ≤ 16383) → (1 ≤ h ∧ h ≤ 16383) → key.length ≠ FILE_KEY_LENGTH →
      ImageRepresentation.make ct key w h = .error (.invalidFileKey key)) := by
  refine ⟨?_, ?_, ?_, ?_⟩
  · rintro ⟨h1, h2, h3, h4, h5⟩
    simp [ImageRepresentation.make, h1, h2, h3, h4, h5]
  · intro hbad
    simp [ImageRepresentation.make, hbad]
  · intro hgood hbad
    simp [ImageRepresentation.make, hgood.1, hgood.2, hbad]
  · intro hgood1 hgood2 hbad
    simp [ImageRepresentation.make, hgood1.1, hgood1.2, hgood2.1, hgood2.2, hbad]

/-- C3 (witness): a successful construction at 800×600 with a 16-byte key,
and each failure with its named field and value: width 0, height 20000, and
a 3-byte key. -/
theorem rep_make_spec_witness :
    ImageRepresentation.make .PNG (List.replicate 16 0) 800 600
      = .ok ⟨.PNG, List.replicate 16 0, 800, 600⟩ ∧
    ImageRepresentation.make .PNG (List.replicate 16 0) 0 600
      = .error (.widthOutOfRange 0) ∧
    ImageRepresentation.make .PNG (List.replicate 16 0) 800 20000
      = .error (.heightOutOfRange 20000) ∧
    ImageRepresentation.make .PNG [1, 2, 3] 800 600
      = .error (.invalidFileKey [1, 2, 3]) :=
  ⟨(rep_make_spec .PNG (List.replicate 16 0) 800 600).1
      ⟨by decide, by decide, by decide, by decide, by decide⟩,
    (rep_make_spec .PNG (List.replicate 16 0) 0 600).2.1 (by decide),
    (rep_make_spec .PNG (List.replicate 16 0) 800 20000).2.2.1
      ⟨by decide, by decide⟩ (by decide),
    (rep_make_spec .PNG [1, 2, 3] 800 600).2.2.2
      ⟨by decide, by decide⟩ ⟨by decide, by decide⟩ (by decide)⟩

/-- C4: `ImageRepresentations.__init__` resolves an absent `cover` to the
same object as `original` first, and an absent `thumbnail_generated` to
whatever `cover` resolved to; when both are absent all three slots are the
identical object and mask bits 0 and 1 are zero; `thumbnail_custom` and
`thumbnail_generated_webp` are stored as given, with no default. -/
theorem reps_make_defaults (o : ObjRef) (cov tc tg tw : Option ObjRef) :
    (ImageRepresentations.make o cov tc tg tw).original = o ∧
    (ImageRepresentations.make o cov tc tg tw).cover = cov.getD o ∧
    (ImageRepresentations.make o cov tc tg tw).thumbnail_generated = tg.getD (cov.getD o) ∧
    (ImageRepresentations.make o cov tc tg tw).thumbnail_custom = tc ∧
    (ImageRepresentations.make o cov tc tg tw).thumbnail_generated_webp = tw ∧
    (ImageRepresentations.make o none tc none tw).cover = o ∧
    (ImageRepresentations.make o none tc none tw).thumbnail_generated = o ∧
    (ImageRepresentations.make o none tc none tw).included_mask.testBit 0 = false ∧
    (ImageRepresentations.make o none tc none tw).included_mask.testBit 1 = false := by
  refine ⟨rfl, rfl, rfl, rfl, rfl, rfl, rfl, ?_, ?_⟩ <;>
    · have hb := mask_bits false false tc.isSome tw.isSome
      simp only [ImageRepresentations.make, ImageRepresentations.included_mask,
        Option.getD_none, bne_self_eq_false]
      first
        | exact hb.1
        | exact hb.2.1

/-- C10: the serialized mask byte (the head of the output) always has bits
3, 4, 6 and 7 clear: it is the sum of its bit-0, bit-1, bit-2 and bit-5
contributions, hence one of the 16 values expressible with those four bits,
and at most 39. -/
theorem included_mask_reserved_bits (s : ImageRepresentations) :
    s.serialize_to.headD 0 = s.included_mask ∧
    s.included_mask.testBit 3 = false ∧ s.included_mask.testBit 4 = false ∧
    s.included_mask.testBit 6 = false ∧ s.included_mask.testBit 7 = false ∧
    s.included_mask ≤ 39 ∧
    s.included_mask
      = (s.cover.oid != s.original.oid).toNat
        + 2 * (s.thumbnail_generated.oid != s.cover.oid).toNat
        + 4 * s.thumbnail_custom.isSome.toNat
        + 32 * s.thumbnail_generated_webp.isSome.toNat := by
  obtain ⟨_, _, _, _, h3, h4, h6, h7, hle, hsum⟩ :=
    mask_bits (s.cover.oid != s.original.oid) (s.thumbnail_generated.oid != s.cover.oid)
      s.thumbnail_custom.isSome s.thumbnail_generated_webp.isSome
  exact ⟨rfl, h3, h4, h6, h7, hle, hsum⟩

/-- C9: the destination object name is exactly the URL-safe base64 encoding
of the 16-byte capability key with padding stripped (`b64NoPad`, the
spec's `urlsafe_base64_no_padding`, emits none), concatenated with the
content type's extension including its leading dot; the name is computed
from the capability key and content type alone — the representation carries
no content hash, so no hash can appear in it. -/
theorem get_bucket_key_spec (rep : ImageRepresentation) :
    get_bucket_key rep
      = String.mk (b64NoPad rep.file_key) ++ rep.content_type.extension := by
  unfold get_bucket_key
  rw [rstrip_urlsafe]

/-- C8: the per-item transfer issues its `put_object` call only when the
SHA-256 hex digest computed over the streamed source bytes equals the
expected digest from the media record; on a mismatch it fails with the
`IntegrityError` (naming the computed digest and the source path) before any
upload for that item, and the uploaded body is exactly the verified
stream. -/
theorem upload_integrity_check (mediaRoot : String) (fs : String → List Nat)
    (sha256_hex md5_b64 : List Nat → String) (rep : ObjRef) (media : Media) :
    (∀ call, upload_media mediaRoot fs sha256_hex md5_b64 rep media = .ok call →
      sha256_hex (fs (shard_path mediaRoot media.sha256 media.file_type)) = media.sha256 ∧
      call.body = fs (shard_path mediaRoot media.sha256 media.file_type) ∧
      call.key = get_bucket_key rep.val) ∧
    (sha256_hex (fs (shard_path mediaRoot media.sha256 media.file_type)) ≠ media.sha256 →
      upload_media mediaRoot fs sha256_hex md5_b64 rep media
        = .error (.integrity ("SHA-256 mismatch: got \x27"
            ++ sha256_hex (fs (shard_path mediaRoot media.sha256 media.file_type))
            ++ "\x27 for \x27" ++ shard_path mediaRoot media.sha256 media.file_type
            ++ "\x27"))) := by
  constructor
  · intro call hcall
    unfold upload_media at hcall
    simp only [] at hcall
    by_cases hd : sha256_hex (fs (shard_path mediaRoot media.sha256 media.file_type))
        = media.sha256
    · rw [if_neg (fun hne => hne hd)] at hcall
      simp only [Except.ok.injEq] at hcall
      subst hcall
      exact ⟨hd, rfl, rfl⟩
    · rw [if_pos hd] at hcall
      cases hcall
  · intro hne
    unfold upload_media
    simp only []
    rw [if_pos hne]

/-- C8 (witness): a matching digest ("aa") yields the `put_object` call with
the verified body and capability-derived key; a mismatching record digest
("zz" expected, "aa" computed) yields the integrity error. -/
theorem upload_integrity_check_witness :
    ("aa" : String) = "aa" ∧ ([] : List Nat) = [] ∧
    ("AAAAAAAAAAAAAAAAAAAAAA.png" : String) = get_bucket_key refA.val ∧
    upload_media "root" (fun _ => []) (fun _ => "aa") (fun _ => "md5") refA
        ⟨"zz", "png", ⟨800, 600⟩⟩
      = .error (.integrity ("SHA-256 mismatch: got \x27aa\x27 for \x27"
          ++ shard_path "root" "zz" "png" ++ "\x27")) := by
  obtain ⟨hp1, hp2, hp3⟩ :=
    (upload_integrity_check "root" (fun _ => []) (fun _ => "aa") (fun _ => "md5") refA
        ⟨"aa", "png", ⟨800, 600⟩⟩).1
      ⟨[], "public, max-age=31536000, immutable", "md5", 0, "image/png",
        "AAAAAAAAAAAAAAAAAAAAAA.png"⟩ rfl
  exact ⟨hp1, hp2, hp3.symm,
    (upload_integrity_check "root" (fun _ => []) (fun _ => "aa") (fun _ => "md5") refA
      ⟨"zz", "png", ⟨800, 600⟩⟩).2 (by decide)⟩

/-- The submission link of the concrete scenarios: media item 1, an 800×600
PNG with digest "aa". -/
def linkSub : MediaLink := ⟨"submission", 1, "aa", "png", ⟨800, 600⟩⟩

/-- A cover link on the same media item 1. -/
def linkCov : MediaLink := ⟨"cover", 1, "aa", "png", ⟨800, 600⟩⟩

/-- A thumbnail-generated link on a distinct media item 2 (200×150 JPEG). -/
def linkTG2 : MediaLink := ⟨"thumbnail-generated", 2, "aa", "jpg", ⟨200, 150⟩⟩

/-- A thumbnail-generated link on the same media item 1. -/
def linkTG1 : MediaLink := ⟨"thumbnail-generated", 1, "aa", "png", ⟨800, 600⟩⟩

set_option maxRecDepth 40000 in
/-- C6 (counterexample): with the cover role absent, the resolver fails as
claimed, but the raised error's message — `f"Required key not found in
{links!r}"` — interpolates only the links that are present; the substring
"cover" does not occur in it.  The missing role is named only by the chained
`KeyError` (the `cause_key` field). -/
theorem missing_cover_counterexample :
    create_reps "root" (fun _ => []) (fun _ => "aa") (fun _ => "md5")
        (fun _ => List.replicate 16 0) [linkSub, linkTG2]
      = .error (.missingLink
          ("Required key not found in "
            ++ pyReprLinks [("submission", linkSub), ("thumbnail-generated", linkTG2)])
          "cover") ∧
    strMentions "cover"
      ("Required key not found in "
        ++ pyReprLinks [("submission", linkSub), ("thumbnail-generated", linkTG2)]) = false := by
  exact ⟨rfl, by decide⟩

/-- C6 (amended): a missing required role makes `get_rep` raise the
missing-link error whose message lists the links that are present (it does
not name the missing role) and whose chained `KeyError` cause names the
missing role; a missing optional role resolves to null with no error. -/
theorem get_rep_missing_role (links : List (String × MediaLink)) (rbm : List (Int × ObjRef))
    (role : String) (h : links.lookup role = none) :
    get_rep_required links rbm role
      = .error (.missingLink ("Required key not found in " ++ pyReprLinks links) role) ∧
    get_rep_optional links rbm role = .ok none := by
  refine ⟨?_, ?_⟩
  · unfold get_rep_required
    rw [h]
  · unfold get_rep_optional
    rw [h]

/-- C6 (witness): the amended behavior at the concrete scenario — a missing
"cover" errors with cause "cover", a missing "thumbnail-custom" resolves to
null. -/
theorem get_rep_missing_role_witness :
    get_rep_required [("submission", linkSub), ("thumbnail-generated", linkTG2)] [] "cover"
      = .error (.missingLink ("Required key not found in "
          ++ pyReprLinks [("submission", linkSub), ("thumbnail-generated", linkTG2)])
          "cover") ∧
    get_rep_optional [("submission", linkSub), ("thumbnail-generated", linkTG2)] []
        "thumbnail-custom"
      = .ok none :=
  ⟨(get_rep_missing_role [("submission", linkSub), ("thumbnail-generated", linkTG2)] []
      "cover" rfl).1,
    (get_rep_missing_role [("submission", linkSub), ("thumbnail-generated", linkTG2)] []
      "thumbnail-custom" rfl).2⟩

set_option maxRecDepth 40000 in
/-- C7 (counterexample): at a concrete successful input (three roles, all on
media item 1), the value `create_reps` returns is the two-component pair
`(reps, 1)` — built by the `return reps, len(rep_by_mediaid)` statement —
while the media_item_id → Representation mapping (`rep_by_mediaid`, shown in
the second conjunct) is internal only: it is no component of the returned
value, contradicting the claimed triple. -/
theorem create_reps_pair_counterexample :
    create_reps "root" (fun _ => []) (fun _ => "aa") (fun _ => "md5")
        (fun _ => List.replicate 16 0) [linkSub, linkCov, linkTG1]
      = .ok ((⟨⟨0, repA⟩, ⟨0, repA⟩, none, ⟨0, repA⟩, none⟩, 1),
          [⟨[], "public, max-age=31536000, immutable", "md5", 0, "image/png",
            "AAAAAAAAAAAAAAAAAAAAAA.png"⟩]) ∧
    rep_by_mediaid (fun _ => List.replicate 16 0)
        (media_by_mediaid (subdict [("submission", linkSub), ("cover", linkCov),
          ("thumbnail-generated", linkTG1)] ROLE_KEYS))
      = .ok [(1, ⟨0, repA⟩)] := by
  exact ⟨rfl, rfl⟩

/-- C7 (amended): on success the resolver returns the pair of the built
`RepresentationSet` and the distinct-media-item count (the size of the
internal media_item_id → Representation mapping); the mapping itself is
consumed by the upload loop but is not part of the return value. -/
theorem create_reps_returns_pair (mediaRoot : String) (fs : String → List Nat)
    (sha256_hex md5_b64 : List Nat → String) (keySupply : Nat → List Nat)
    (row_links : List MediaLink) (all : List (String × MediaLink))
    (rbm : List (Int × ObjRef)) (original cover thumbnail_generated : ObjRef)
    (thumbnail_custom thumbnail_generated_webp : Option ObjRef)
    (uploads : List UploadCall)
    (h1 : lookup_by row_links = .ok all)
    (h2 : rep_by_mediaid keySupply (media_by_mediaid (subdict all ROLE_KEYS)) = .ok rbm)
    (h3 : get_rep_required (subdict all ROLE_KEYS) rbm "submission" = .ok original)
    (h4 : get_rep_required (subdict all ROLE_KEYS) rbm "cover" = .ok cover)
    (h5 : get_rep_optional (subdict all ROLE_KEYS) rbm "thumbnail-custom"
      = .ok thumbnail_custom)
    (h6 : get_rep_required (subdict all ROLE_KEYS) rbm "thumbnail-generated"
      = .ok thumbnail_generated)
    (h7 : get_rep_optional (subdict all ROLE_KEYS) rbm "thumbnail-generated-webp"
      = .ok thumbnail_generated_webp)
    (h8 : upload_all mediaRoot fs sha256_hex md5_b64
      (media_by_mediaid (subdict all ROLE_KEYS)) rbm = .ok uploads) :
    create_reps mediaRoot fs sha256_hex md5_b64 keySupply row_links
      = .ok ((ImageRepresentations.make original (some cover) thumbnail_custom
          (some thumbnail_generated) thumbnail_generated_webp, rbm.length), uploads) := by
  unfold create_reps
  rw [h1]
  simp only []
  rw [h2]
  simp only []
  rw [h3]
  simp only []
  rw [h4]
  simp only []
  rw [h5]
  simp only []
  rw [h6]
  simp only []
  rw [h7]
  simp only []
  rw [h8]

/-- C7 (witness): the amended pair-return at the concrete scenario of the
counterexample. -/
theorem create_reps_returns_pair_witness :
    create_reps "root" (fun _ => []) (fun _ => "aa") (fun _ => "md5")
        (fun _ => List.replicate 16 0) [linkSub, linkCov, linkTG1]
      = .ok ((ImageRepresentations.make ⟨0, repA⟩ (some ⟨0, repA⟩) none
          (some ⟨0, repA⟩) none, 1),
          [⟨[], "public, max-age=31536000, immutable", "md5", 0, "image/png",
            "AAAAAAAAAAAAAAAAAAAAAA.png"⟩]) :=
  create_reps_returns_pair "root" (fun _ => []) (fun _ => "aa") (fun _ => "md5")
    (fun _ => List.replicate 16 0) [linkSub, linkCov, linkTG1]
    [("submission", linkSub), ("cover", linkCov), ("thumbnail-generated", linkTG1)]
    [(1, ⟨0, repA⟩)] ⟨0, repA⟩ ⟨0, repA⟩ ⟨0, repA⟩ none none
    [⟨[], "public, max-age=31536000, immutable", "md5", 0, "image/png",
      "AAAAAAAAAAAAAAAAAAAAAA.png"⟩]
    rfl rfl rfl rfl rfl rfl rfl rfl

/-- C5: on success, the resolver built exactly one representation per
distinct `mediaid` among the retained (known-role) links — the mapping's
keys are duplicate-free and are exactly the retained links' mediaids — and
two roles resolve to the identical object (same `oid`, same value) if and
only if their links share a `mediaid`; the reported count equals the number
of distinct mediaids among the retained links. -/
theorem create_reps_dedup (mediaRoot : String) (fs : String → List Nat)
    (sha256_hex md5_b64 : List Nat → String) (keySupply : Nat → List Nat)
    (row_links : List MediaLink) (reps : ImageRepresentations) (count : Nat)
    (uploads : List UploadCall)
    (h : create_reps mediaRoot fs sha256_hex md5_b64 keySupply row_links
      = .ok ((reps, count), uploads)) :
    ∃ all rbm, lookup_by row_links = .ok all ∧
      rep_by_mediaid keySupply (media_by_mediaid (subdict all ROLE_KEYS)) = .ok rbm ∧
      ((rbm.map Prod.fst).Nodup ∧
        ∀ k, k ∈ rbm.map Prod.fst ↔
          k ∈ (subdict all ROLE_KEYS).map (fun kv => kv.2.mediaid)) ∧
      (∀ role1 role2 l1 l2 o1 o2,
        (subdict all ROLE_KEYS).lookup role1 = some l1 →
        (subdict all ROLE_KEYS).lookup role2 = some l2 →
        get_rep_required (subdict all ROLE_KEYS) rbm role1 = .ok o1 →
        get_rep_required (subdict all ROLE_KEYS) rbm role2 = .ok o2 →
        (l1.mediaid = l2.mediaid ↔ o1 = o2)) ∧
      count = ((subdict all ROLE_KEYS).map (fun kv => kv.2.mediaid)).dedup.length := by
  obtain ⟨all, rbm, hall, hrbm, hcount⟩ :=
    create_reps_ok_inv mediaRoot fs sha256_hex md5_b64 keySupply row_links reps count uploads h
  obtain ⟨hkeys, hoids⟩ := rep_by_mediaid_aux_spec keySupply _ 0 _ hrbm
  obtain ⟨hnodup_mbm, hmem_mbm⟩ := mbm_fold_keys (subdict all ROLE_KEYS) [] (by simp)
  have hmemb : ∀ k, k ∈ (media_by_mediaid (subdict all ROLE_KEYS)).map Prod.fst ↔
      k ∈ (subdict all ROLE_KEYS).map (fun kv => kv.2.mediaid) := by
    intro k
    simpa using hmem_mbm k
  have hnodup_oid : (rbm.map (fun e => e.2.oid)).Nodup := by
    rw [hoids]
    exact List.nodup_range' _ _
  refine ⟨all, rbm, hall, hrbm, ⟨by rw [hkeys]; exact hnodup_mbm, fun k => by
    rw [hkeys]; exact hmemb k⟩, ?_, ?_⟩
  · intro role1 role2 l1 l2 o1 o2 hl1 hl2 hg1 hg2
    have e1 : rbm.lookup l1.mediaid = some o1 := by
      unfold get_rep_required at hg1
      rw [hl1] at hg1
      simp only [] at hg1
      cases hlk : rbm.lookup l1.mediaid with
      | none => rw [hlk] at hg1; cases hg1
      | some r =>
          rw [hlk] at hg1
          simp only [Except.ok.injEq] at hg1
          rw [← hg1]
    have e2 : rbm.lookup l2.mediaid = some o2 := by
      unfold get_rep_required at hg2
      rw [hl2] at hg2
      simp only [] at hg2
      cases hlk : rbm.lookup l2.mediaid with
      | none => rw [hlk] at hg2; cases hg2
      | some r =>
          rw [hlk] at hg2
          simp only [Except.ok.injEq] at hg2
          rw [← hg2]
    constructor
    · intro hmid
      rw [hmid] at e1
      exact Option.some.inj (e1.symm.trans e2)
    · intro ho
      have mem1 : (l1.mediaid, o1) ∈ rbm := lookup_mem rbm l1.mediaid o1 e1
      have mem2 : (l2.mediaid, o2) ∈ rbm := lookup_mem rbm l2.mediaid o2 e2
      have hpair : (l1.mediaid, o1) = (l2.mediaid, o2) :=
        List.inj_on_of_nodup_map hnodup_oid mem1 mem2 (by rw [ho])
      exact (Prod.ext_iff.mp hpair).1
  · have hfin : ((media_by_mediaid (subdict all ROLE_KEYS)).map Prod.fst).toFinset
        = ((subdict all ROLE_KEYS).map (fun kv => kv.2.mediaid)).toFinset := by
      ext a
      simp only [List.mem_toFinset]
      exact hmemb a
    calc count = rbm.length := hcount
      _ = (rbm.map Prod.fst).length := (List.length_map _ _).symm
      _ = ((media_by_mediaid (subdict all ROLE_KEYS)).map Prod.fst).length := by rw [hkeys]
      _ = ((media_by_mediaid (subdict all ROLE_KEYS)).map Prod.fst).toFinset.card :=
          (List.toFinset_card_of_nodup hnodup_mbm).symm
      _ = ((subdict all ROLE_KEYS).map (fun kv => kv.2.mediaid)).toFinset.card := by rw [hfin]
      _ = ((subdict all ROLE_KEYS).map (fun kv => kv.2.mediaid)).dedup.length :=
          List.card_toFinset _

/-- The role-keyed link dict of the two-media-item scenario. -/
def allS1 : List (String × MediaLink) :=
  [("submission", linkSub), ("cover", linkCov), ("thumbnail-generated", linkTG2)]

/-- The media_item_id → representation mapping of that scenario: one fresh
object per distinct media item. -/
def rbmS1 : List (Int × ObjRef) := [(1, ⟨0, repA⟩), (2, ⟨1, repB⟩)]

set_option maxRecDepth 40000 in
/-- C5 (witness): in the scenario with roles submission and cover on media
item 1 and thumbnail-generated on media item 2, the mapping holds one object
per distinct item, submission and cover resolve to the identical object,
submission and thumbnail-generated do not, and the count is 2. -/
theorem create_reps_dedup_witness :
    lookup_by [linkSub, linkCov, linkTG2] = .ok allS1 ∧
    rep_by_mediaid (fun _ => List.replicate 16 0)
      (media_by_mediaid (subdict allS1 ROLE_KEYS)) = .ok rbmS1 ∧
    (rbmS1.map Prod.fst).Nodup ∧
    (linkSub.mediaid = linkCov.mediaid ↔ refA = refA) ∧
    (linkSub.mediaid = linkTG2.mediaid ↔ refA = refB) ∧
    2 = ((subdict allS1 ROLE_KEYS).map (fun kv => kv.2.mediaid)).dedup.length := by
  obtain ⟨all, rbm, h1, h2, h3, h4, h5⟩ :=
    create_reps_dedup "root" (fun _ => []) (fun _ => "aa") (fun _ => "md5")
      (fun _ => List.replicate 16 0) [linkSub, linkCov, linkTG2]
      ⟨⟨0, repA⟩, ⟨0, repA⟩, none, ⟨1, repB⟩, none⟩ 2
      [⟨[], "public, max-age=31536000, immutable", "md5", 0, "image/png",
        "AAAAAAAAAAAAAAAAAAAAAA.png"⟩,
       ⟨[], "public, max-age=31536000, immutable", "md5", 0, "image/jpeg",
        "AAAAAAAAAAAAAAAAAAAAAA.jpg"⟩]
      rfl
  have ha : all = allS1 := Except.ok.inj (h1.symm.trans rfl)
  subst ha
  have hb : rbm = rbmS1 := Except.ok.inj (h2.symm.trans rfl)
  subst hb
  refine ⟨h1, h2, h3.1, ?_, ?_, h5⟩
  · exact h4 "submission" "cover" linkSub linkCov refA refA rfl rfl rfl rfl
  · exact h4 "submission" "thumbnail-generated" linkSub linkTG2 refA refB rfl rfl rfl rfl
